import Mathlib

/-!
Shallow embedding of `src/loadbalancer.go` (package main of the
poc_loadbalancer repository).

The Go program keeps a per-node limits map `LoadBalancer.NodeLimits`
(the CapacityTable) and an append-only MongoDB collection of usage
records (the UsageLedger), one document `{timestamp, node_id, bpm}`
per admitted request.  `getAvailableNodes` runs an aggregation that
matches documents with `timestamp > now - 1min`, groups them by
`node_id`, and keeps the groups whose count and bpm-sum are strictly
below the node's configured limits.  `selectNode` picks a
`rand.Intn`-indexed element of that slice, returning the empty string
when the slice is empty.  `handleRequest` parses the body, calls
`selectNode`, and either inserts one usage document and answers 200,
or answers 429; a body parse failure answers 400 before any of that.

Modelling choices, stated once:
* instants are `Int` seconds (`time.Minute` becomes the literal 60);
* the MongoDB collection is a `List UsageEvent` in insertion order,
  and `InsertOne` is list append;
* `$group`'s (unspecified) output order is taken as the order of last
  first appearance produced by `List.dedup`; every property proved
  below is order-independent except concrete evaluations;
* `rand.Intn n` is modelled by `i % n` for an arbitrary caller-chosen
  `i : Nat`, so every slice position is reachable and a uniformly
  distributed `i` induces the uniform choice of the Go code;
* a Go map lookup of an absent key yields the zero value, hence
  `lookupLimits` defaults to limits `0`/`0`;
* `log.Fatal` (which terminates the process) is the distinguished
  outcome `GoOutcome.fatalExit`, carrying no HTTP response.
-/

/-- Go struct `Request`: the parsed JSON body `{"bpm": ...}`. -/
structure Request where
  BPM : Int
deriving DecidableEq

/-- Go struct `NodeLimits` (the unused `Timestamp` field is dropped). -/
structure NodeLimits where
  NodeID : String
  RPMLimit : Int
  BPMLimit : Int
deriving DecidableEq

/-- One document of the `requests` collection: Go struct fields
`node_id`, `timestamp`, `bpm` as inserted by `sendRequestToNode`. -/
structure UsageEvent where
  node_id : String
  timestamp : Int
  bpm : Int
deriving DecidableEq

/-- Go struct `LoadBalancer`: the `map[string]NodeLimits` is embedded
as an association list keyed by `NodeID` (keys unique in a Go map;
none of the code below depends on uniqueness). -/
structure LoadBalancer where
  limits : List NodeLimits
deriving DecidableEq

/-- Go map indexing `lb.NodeLimits[id]`: the entry if present, else
the zero value of the struct (zero limits). -/
def lookupLimits (lb : LoadBalancer) (node : String) : NodeLimits :=
  (lb.limits.find? (fun L => L.NodeID == node)).getD ⟨node, 0, 0⟩

/-- `currentTime := time.Now().Add(-time.Minute)` of `getAvailableNodes`. -/
def windowStart (now : Int) : Int := now - 60

/-- The `$match` stage: documents with `timestamp > now - 1min`.
Note the Go query has no upper bound on the timestamp. -/
def windowEvents (ledger : List UsageEvent) (now : Int) : List UsageEvent :=
  ledger.filter (fun e => decide (windowStart now < e.timestamp))

/-- The `$group` keys: one group per `node_id` occurring among the
matched documents.  A node with no matched document yields no group. -/
def aggGroups (ledger : List UsageEvent) (now : Int) : List String :=
  ((windowEvents ledger now).map UsageEvent.node_id).dedup

/-- The group's `requests_count` (`$sum: 1`) for a node. -/
def requestsCnt (ledger : List UsageEvent) (now : Int) (node : String) : Int :=
  ((windowEvents ledger now).filter (fun e => e.node_id == node)).length

/-- The group's `total_bpm` (`$sum: "$bpm"`) for a node. -/
def totalBPM (ledger : List UsageEvent) (now : Int) (node : String) : Int :=
  (((windowEvents ledger now).filter (fun e => e.node_id == node)).map
    UsageEvent.bpm).sum

/-- `LoadBalancer.getAvailableNodes`: iterate the aggregation groups
and keep a node iff its count and bpm-sum are strictly below the
limits read from `lb.NodeLimits[node]` (zero value when absent). -/
def getAvailableNodes (lb : LoadBalancer) (ledger : List UsageEvent)
    (now : Int) : List String :=
  (aggGroups ledger now).filter (fun n =>
    decide (requestsCnt ledger now n < (lookupLimits lb n).RPMLimit) &&
    decide (totalBPM ledger now n < (lookupLimits lb n).BPMLimit))

/-- `LoadBalancer.selectNode`: `availableNodes[rand.Intn(len)]` when
non-empty, else the empty string.  The random draw is the caller's
`i`, reduced mod the length. -/
def selectNode (lb : LoadBalancer) (ledger : List UsageEvent) (now : Int)
    (i : Nat) : String :=
  let ns := getAvailableNodes lb ledger now
  if ns.length > 0 then ns.getD (i % ns.length) "" else ""

/-- `LoadBalancer.sendRequestToNode`: insert one usage document for
the chosen node.  (The Go code reads `time.Now()` again for the
document; the model reuses the decision instant, which is the only
clock value in scope per call.) -/
def sendRequestToNode (nodeID : String) (request : Request)
    (ledger : List UsageEvent) (now : Int) : List UsageEvent :=
  ledger ++ [⟨nodeID, now, request.BPM⟩]

/-- Outcome of one `handleRequest` call at the HTTP surface, plus the
process-terminating `log.Fatal` path. -/
inductive GoOutcome where
  | badRequest
  | success (node : String)
  | rateLimited
  | fatalExit
deriving DecidableEq

/-- HTTP status written for each outcome; `fatalExit` writes none
(the process exits), recorded as 0. -/
def httpStatus : GoOutcome → Nat
  | .badRequest => 400
  | .success _ => 200
  | .rateLimited => 429
  | .fatalExit => 0

/-- The 429 body string of `handleRequest`. -/
def rateLimitedBody : String :=
  "All nodes are currently at rate limit. Retry later."

/-- `handleRequest`: `parsed` is the result of the JSON decode (`none`
on parse error).  Returns the outcome, the ledger after the call, and
the load balancer after the call. -/
def handleRequest (parsed : Option Request) (lb : LoadBalancer)
    (ledger : List UsageEvent) (now : Int) (i : Nat) :
    GoOutcome × List UsageEvent × LoadBalancer :=
  match parsed with
  | none => (.badRequest, ledger, lb)
  | some req =>
      let sel := selectNode lb ledger now i
      if sel ≠ "" then (.success sel, sendRequestToNode sel req ledger now, lb)
      else (.rateLimited, ledger, lb)

/-- Result of one store (MongoDB) operation, for the failure paths. -/
inductive StoreOutcome where
  | ok
  | failed
deriving DecidableEq

/-- `handleRequest` with the two store operations made explicit:
`agg` is the aggregation query of `getAvailableNodes` and `ins` the
`InsertOne` of `sendRequestToNode`.  On either error the Go code calls
`log.Fatal`, terminating the process: outcome `fatalExit`, no HTTP
response, ledger unchanged. -/
def handleRequestStore (parsed : Option Request) (lb : LoadBalancer)
    (ledger : List UsageEvent) (now : Int) (i : Nat)
    (agg ins : StoreOutcome) : GoOutcome × List UsageEvent × LoadBalancer :=
  match parsed with
  | none => (.badRequest, ledger, lb)
  | some req =>
      match agg with
      | .failed => (.fatalExit, ledger, lb)
      | .ok =>
          let sel := selectNode lb ledger now i
          if sel ≠ "" then
            match ins with
            | .failed => (.fatalExit, ledger, lb)
            | .ok => (.success sel, sendRequestToNode sel req ledger now, lb)
          else (.rateLimited, ledger, lb)

/-- Modelled from the spec: the rolling-window request count as the
spec words it, `timestamp ∈ (now-60s, now]` — strictly above
`now - 60` and at most `now` (the source query lacks the upper
bound). -/
def specWindowCount (ledger : List UsageEvent) (now : Int)
    (node : String) : Int :=
  (ledger.filter (fun e =>
    e.node_id == node && decide (now - 60 < e.timestamp) &&
    decide (e.timestamp ≤ now))).length

/-- Modelled from the spec: the rolling-window workload sum over the
same event set as `specWindowCount`. -/
def specWindowWorkload (ledger : List UsageEvent) (now : Int)
    (node : String) : Int :=
  ((ledger.filter (fun e =>
    e.node_id == node && decide (now - 60 < e.timestamp) &&
    decide (e.timestamp ≤ now))).map UsageEvent.bpm).sum

/-! ### Helper lemmas shared by the claim theorems -/

theorem requestsCnt_nonneg (ledger : List UsageEvent) (now : Int)
    (node : String) : 0 ≤ requestsCnt ledger now node :=
  Int.natCast_nonneg _

theorem mem_getAvailableNodes {lb : LoadBalancer} {ledger : List UsageEvent}
    {now : Int} {node : String} :
    node ∈ getAvailableNodes lb ledger now ↔
      node ∈ aggGroups ledger now ∧
      requestsCnt ledger now node < (lookupLimits lb node).RPMLimit ∧
      totalBPM ledger now node < (lookupLimits lb node).BPMLimit := by
  simp [getAvailableNodes, List.mem_filter, and_assoc]

theorem mem_aggGroups_of_cnt_pos {ledger : List UsageEvent} {now : Int}
    {node : String} (h : 0 < requestsCnt ledger now node) :
    node ∈ aggGroups ledger now := by
  unfold requestsCnt at h
  have hlen : ((windowEvents ledger now).filter
      (fun e => e.node_id == node)).length ≠ 0 := by
    intro h0
    rw [h0] at h
    exact lt_irrefl 0 h
  have hne : (windowEvents ledger now).filter (fun e => e.node_id == node) ≠ [] := by
    intro h0
    exact hlen (by rw [h0]; rfl)
  obtain ⟨e, he⟩ := List.exists_mem_of_ne_nil _ hne
  obtain ⟨hw, hp⟩ := List.mem_filter.mp he
  have : e.node_id = node := by simpa using hp
  unfold aggGroups
  rw [List.mem_dedup]
  exact List.mem_map.mpr ⟨e, hw, this⟩

theorem lookupLimits_absent {lb : LoadBalancer} {node : String}
    (h : ∀ L ∈ lb.limits, L.NodeID ≠ node) :
    lookupLimits lb node = ⟨node, 0, 0⟩ := by
  have hn : lb.limits.find? (fun L => L.NodeID == node) = none :=
    List.find?_eq_none.mpr (fun L hL => by simpa using h L hL)
  unfold lookupLimits
  rw [hn]
  rfl

theorem selectNode_mem (lb : LoadBalancer) (ledger : List UsageEvent)
    (now : Int) (i : Nat) (h : getAvailableNodes lb ledger now ≠ []) :
    selectNode lb ledger now i ∈ getAvailableNodes lb ledger now := by
  have hl : 0 < (getAvailableNodes lb ledger now).length := List.length_pos.mpr h
  have hm : i % (getAvailableNodes lb ledger now).length <
      (getAvailableNodes lb ledger now).length := Nat.mod_lt _ hl
  unfold selectNode
  simp only [hl, if_pos]
  rw [List.getD_eq_getElem _ _ hm]
  exact List.getElem_mem hm

theorem selectNode_of_empty (lb : LoadBalancer) (ledger : List UsageEvent)
    (now : Int) (i : Nat) (h : getAvailableNodes lb ledger now = []) :
    selectNode lb ledger now i = "" := by
  simp [selectNode, h]

theorem handleRequest_some_cases (req : Request) (lb : LoadBalancer)
    (ledger : List UsageEvent) (now : Int) (i : Nat) :
    (selectNode lb ledger now i ≠ "" ∧
      handleRequest (some req) lb ledger now i =
        (.success (selectNode lb ledger now i),
         ledger ++ [⟨selectNode lb ledger now i, now, req.BPM⟩], lb)) ∨
    (selectNode lb ledger now i = "" ∧
      handleRequest (some req) lb ledger now i = (.rateLimited, ledger, lb)) := by
  by_cases hz : selectNode lb ledger now i = ""
  · exact Or.inr ⟨hz, by simp [handleRequest, hz]⟩
  · exact Or.inl ⟨hz, by simp [handleRequest, hz, sendRequestToNode]⟩

theorem windowFilter_eq (ledger : List UsageEvent) (now : Int) (node : String)
    (h : ∀ e ∈ ledger, e.timestamp ≤ now) :
    (windowEvents ledger now).filter (fun e => e.node_id == node) =
      ledger.filter (fun e =>
        e.node_id == node && decide (now - 60 < e.timestamp) &&
        decide (e.timestamp ≤ now)) := by
  unfold windowEvents
  rw [List.filter_filter]
  apply List.filter_congr
  intro e he
  have ht : decide (e.timestamp ≤ now) = true := decide_eq_true (h e he)
  simp [windowStart, ht, Bool.and_comm]

/-! ### Claim theorems -/

/-- Concrete input for C1: one registered node with positive limits. -/
def lbC1 : LoadBalancer := ⟨[⟨"A", 2, 100⟩]⟩

/-- C1: the claim says every node of the CapacityTable with window
count below `rpm_limit` and window workload below `bpm_limit` is in
the eligible set, in particular a registered node with positive limits
and zero window events.  The code instead iterates the aggregation
groups, which contain only nodes with at least one window event: node
`A` is registered with limits `2`/`100`, has count `0 < 2` and
workload `0 < 100` in the empty ledger, yet `getAvailableNodes`
returns the empty list. -/
theorem c1_zero_usage_node_not_eligible :
    (∃ L ∈ lbC1.limits, L.NodeID = "A" ∧ 0 < L.RPMLimit ∧ 0 < L.BPMLimit) ∧
    requestsCnt [] 1000 "A" = 0 ∧ totalBPM [] 1000 "A" = 0 ∧
    requestsCnt [] 1000 "A" < (lookupLimits lbC1 "A").RPMLimit ∧
    totalBPM [] 1000 "A" < (lookupLimits lbC1 "A").BPMLimit ∧
    getAvailableNodes lbC1 [] 1000 = [] := by
  decide

/-- Concrete input for C2: one node, `rpm_limit = 10`, `bpm_limit = 50`. -/
def lbC2 : LoadBalancer := ⟨[⟨"A", 10, 50⟩]⟩

/-- C2: ledger before the race, one admitted request of workload 30
inside the window of `now = 100`. -/
def ledgerC2 : List UsageEvent := [⟨"A", 90, 30⟩]

/-- C2: the ledger after the racy interleaving: both concurrent
`handle` calls run their aggregation query against `ledgerC2` (neither
insert has happened yet), both admit, then both inserts land. -/
def raceLedgerC2 : List UsageEvent :=
  sendRequestToNode "A" ⟨30⟩ (sendRequestToNode "A" ⟨30⟩ ledgerC2 100) 100

/-- C2: the claim says the compute-eligibility-then-append sequence is
serialized, so at most `floor(bpm_limit / workload) = floor(50/30) = 1`
admission of workload 30 can land on `A` in any window.  The code has
no lock: in the interleaving decide/decide/append/append, both
concurrent calls evaluate `selectNode` on the same stale `ledgerC2`
(whatever their random draws), both return `A`, and after both appends
the window holds 3 admissions of total workload 90 > 50. -/
theorem c2_concurrent_overshoot :
    selectNode lbC2 ledgerC2 100 0 = "A" ∧
    selectNode lbC2 ledgerC2 100 1 = "A" ∧
    requestsCnt raceLedgerC2 100 "A" = 3 ∧
    totalBPM raceLedgerC2 100 "A" = 90 ∧
    (lookupLimits lbC2 "A").BPMLimit = 50 ∧
    totalBPM raceLedgerC2 100 "A" > (lookupLimits lbC2 "A").BPMLimit ∧
    requestsCnt raceLedgerC2 100 "A" > 50 / 30 := by
  decide

/-- C3: for every ledger whose events carry past-or-present
timestamps (the only ledgers the program builds, since every insert is
stamped with its own `time.Now()`), the aggregation count and workload
sum equal the spec's exact window `(now - 60, now]`: an event at
exactly `now - 60` is excluded by the strict `$gt`, one at exactly
`now` is included. -/
theorem c3_window_aggregate_exact (ledger : List UsageEvent) (now : Int)
    (node : String) (h : ∀ e ∈ ledger, e.timestamp ≤ now) :
    requestsCnt ledger now node = specWindowCount ledger now node ∧
    totalBPM ledger now node = specWindowWorkload ledger now node := by
  have hf := windowFilter_eq ledger now node h
  constructor
  · unfold requestsCnt specWindowCount
    rw [hf]
  · unfold totalBPM specWindowWorkload
    rw [hf]

/-- C3 witness ledger: a boundary event at exactly `now - 60 = 40`
(excluded), one at 41 and one at exactly `now = 100` (included), and
one event of another node. -/
def ledgerC3 : List UsageEvent :=
  [⟨"A", 40, 7⟩, ⟨"A", 41, 8⟩, ⟨"A", 100, 9⟩, ⟨"B", 99, 5⟩]

/-- C3 witness: the theorem applied at `ledgerC3`, `now = 100`,
node `A`; the shared value is 2 events of workload 17, excluding the
boundary event at 40. -/
theorem c3_window_aggregate_exact_witness :
    (∀ e ∈ ledgerC3, e.timestamp ≤ 100) ∧
    (requestsCnt ledgerC3 100 "A" = specWindowCount ledgerC3 100 "A" ∧
     totalBPM ledgerC3 100 "A" = specWindowWorkload ledgerC3 100 "A") ∧
    requestsCnt ledgerC3 100 "A" = 2 ∧ totalBPM ledgerC3 100 "A" = 17 :=
  ⟨by decide, c3_window_aggregate_exact ledgerC3 100 "A" (by decide),
   by decide, by decide⟩

/-- C4: whenever the eligible set computed for a request is empty,
`handleRequest` answers the 429 rejection with the fixed body and
leaves the ledger (and the limits map) unchanged — no usage event is
appended. -/
theorem c4_empty_eligible_rejected (lb : LoadBalancer)
    (ledger : List UsageEvent) (now : Int) (req : Request) (i : Nat)
    (h : getAvailableNodes lb ledger now = []) :
    handleRequest (some req) lb ledger now i = (.rateLimited, ledger, lb) ∧
    httpStatus .rateLimited = 429 ∧
    rateLimitedBody = "All nodes are currently at rate limit. Retry later." := by
  refine ⟨?_, rfl, rfl⟩
  have hz := selectNode_of_empty lb ledger now i h
  simp [handleRequest, hz]

/-- C4 witness: a load balancer with one registered node whose window
count sits exactly at its `rpm_limit`, so the eligible set is empty
and the request is rejected with no append. -/
def lbC4 : LoadBalancer := ⟨[⟨"A", 1, 100⟩]⟩

/-- C4 witness ledger: one window event, putting `A` at its limit. -/
def ledgerC4 : List UsageEvent := [⟨"A", 95, 10⟩]

/-- C4 witness: the theorem applied at the concrete saturated state. -/
theorem c4_empty_eligible_rejected_witness :
    getAvailableNodes lbC4 ledgerC4 100 = [] ∧
    (handleRequest (some ⟨5⟩) lbC4 ledgerC4 100 0 =
       (.rateLimited, ledgerC4, lbC4) ∧
     httpStatus .rateLimited = 429 ∧
     rateLimitedBody = "All nodes are currently at rate limit. Retry later.") :=
  ⟨by decide, c4_empty_eligible_rejected lbC4 ledgerC4 100 ⟨5⟩ 0 (by decide)⟩

/-- C5 counterexample input: node `A` registered with the positive
limits `rpm_limit = 1`, `bpm_limit = 100`. -/
def lbC5 : LoadBalancer := ⟨[⟨"A", 1, 100⟩]⟩

/-- C5 counterexample: the claim quantifies over all positive limits,
but at `rpm_limit = 1` a node with window count `rpm_limit - 1 = 0`
has no aggregation group, so the code does not include it in the
eligible set even though its workload `0` is below `bpm_limit`. -/
theorem c5_rpm_one_boundary_fails :
    (lookupLimits lbC5 "A").RPMLimit = 1 ∧
    (lookupLimits lbC5 "A").BPMLimit = 100 ∧
    requestsCnt [] 1000 "A" = (lookupLimits lbC5 "A").RPMLimit - 1 ∧
    totalBPM [] 1000 "A" < (lookupLimits lbC5 "A").BPMLimit ∧
    "A" ∉ getAvailableNodes lbC5 [] 1000 := by
  decide

/-- C5 amended: for limits with `rpm_limit ≥ 2` (so that the boundary
count `rpm_limit - 1` is at least one event and the node has an
aggregation group), a node with window count `rpm_limit - 1` and
workload strictly below `bpm_limit` is eligible; and for every limit a
node with window count equal to `rpm_limit` is not eligible — both
comparisons of the code are strict. -/
theorem c5_strict_boundary (lb : LoadBalancer) (ledger : List UsageEvent)
    (now : Int) (node : String) :
    (2 ≤ (lookupLimits lb node).RPMLimit →
     requestsCnt ledger now node = (lookupLimits lb node).RPMLimit - 1 →
     totalBPM ledger now node < (lookupLimits lb node).BPMLimit →
     node ∈ getAvailableNodes lb ledger now) ∧
    (requestsCnt ledger now node = (lookupLimits lb node).RPMLimit →
     node ∉ getAvailableNodes lb ledger now) := by
  constructor
  · intro h2 hc hb
    have hpos : 0 < requestsCnt ledger now node := by omega
    exact mem_getAvailableNodes.mpr
      ⟨mem_aggGroups_of_cnt_pos hpos, by omega, hb⟩
  · intro hc hmem
    have := (mem_getAvailableNodes.mp hmem).2.1
    omega

/-- C5 witness input: node `A` with `rpm_limit = 2`, `bpm_limit = 100`. -/
def lbC5w : LoadBalancer := ⟨[⟨"A", 2, 100⟩]⟩

/-- C5 witness ledger for the eligible side: one window event, count
`1 = rpm_limit - 1`. -/
def ledgerC5a : List UsageEvent := [⟨"A", 95, 10⟩]

/-- C5 witness ledger for the ineligible side: two window events,
count `2 = rpm_limit`. -/
def ledgerC5b : List UsageEvent := [⟨"A", 95, 10⟩, ⟨"A", 96, 10⟩]

/-- C5 witness: the amended theorem applied on both sides of the
boundary at concrete states. -/
theorem c5_strict_boundary_witness :
    (2 ≤ (lookupLimits lbC5w "A").RPMLimit ∧
     requestsCnt ledgerC5a 100 "A" = (lookupLimits lbC5w "A").RPMLimit - 1 ∧
     totalBPM ledgerC5a 100 "A" < (lookupLimits lbC5w "A").BPMLimit ∧
     "A" ∈ getAvailableNodes lbC5w ledgerC5a 100) ∧
    (requestsCnt ledgerC5b 100 "A" = (lookupLimits lbC5w "A").RPMLimit ∧
     "A" ∉ getAvailableNodes lbC5w ledgerC5b 100) :=
  ⟨⟨by decide, by decide, by decide,
    (c5_strict_boundary lbC5w ledgerC5a 100 "A").1 (by decide) (by decide)
      (by decide)⟩,
   ⟨by decide, (c5_strict_boundary lbC5w ledgerC5b 100 "A").2 (by decide)⟩⟩

/-- C6: when the eligible slice is non-empty, `selectNode` returns
exactly its `(i % length)`-th element — so the returned node is always
a member of the eligible set, and a uniformly distributed random draw
`i` picks each position with equal probability, which is the Go
`rand.Intn` behavior; when the slice is empty it returns the empty
string, the code's encoding of "no node". -/
theorem c6_select_in_eligible (lb : LoadBalancer) (ledger : List UsageEvent)
    (now : Int) (i : Nat) :
    (getAvailableNodes lb ledger now ≠ [] →
       selectNode lb ledger now i ∈ getAvailableNodes lb ledger now ∧
       selectNode lb ledger now i =
         (getAvailableNodes lb ledger now).getD
           (i % (getAvailableNodes lb ledger now).length) "") ∧
    (getAvailableNodes lb ledger now = [] →
       selectNode lb ledger now i = "") := by
  constructor
  · intro h
    refine ⟨selectNode_mem lb ledger now i h, ?_⟩
    have hl : 0 < (getAvailableNodes lb ledger now).length :=
      List.length_pos.mpr h
    simp [selectNode, hl]
  · intro h
    exact selectNode_of_empty lb ledger now i h

/-- C6 witness input: two eligible nodes. -/
def lbC6 : LoadBalancer := ⟨[⟨"A", 2, 100⟩, ⟨"B", 2, 100⟩]⟩

/-- C6 witness ledger: one window event per node. -/
def ledgerC6 : List UsageEvent := [⟨"A", 95, 10⟩, ⟨"B", 96, 10⟩]

/-- C6 witness: the theorem applied with random draw 3 over the
two-element eligible slice. -/
theorem c6_select_in_eligible_witness :
    getAvailableNodes lbC6 ledgerC6 100 ≠ [] ∧
    (selectNode lbC6 ledgerC6 100 3 ∈ getAvailableNodes lbC6 ledgerC6 100 ∧
     selectNode lbC6 ledgerC6 100 3 =
       (getAvailableNodes lbC6 ledgerC6 100).getD
         (3 % (getAvailableNodes lbC6 ledgerC6 100).length) "") :=
  ⟨by decide, (c6_select_in_eligible lbC6 ledgerC6 100 3).1 (by decide)⟩

/-- C7: a node with no entry in the limits map is never eligible —
its zero-value limits make the strict comparisons fail (a count, being
a length, is never below 0) — and is never the success node of
`handleRequest`, for every ledger and query time, including ledgers
holding window events of that node. -/
theorem c7_unregistered_never_routed (lb : LoadBalancer)
    (ledger : List UsageEvent) (now : Int) (node : String) (req : Request)
    (i : Nat) (h : ∀ L ∈ lb.limits, L.NodeID ≠ node) :
    node ∉ getAvailableNodes lb ledger now ∧
    (handleRequest (some req) lb ledger now i).1 ≠ .success node := by
  have hmem : node ∉ getAvailableNodes lb ledger now := by
    intro hn
    have hlt := (mem_getAvailableNodes.mp hn).2.1
    rw [lookupLimits_absent h] at hlt
    exact absurd hlt (not_lt.mpr (requestsCnt_nonneg ledger now node))
  refine ⟨hmem, ?_⟩
  rcases handleRequest_some_cases req lb ledger now i with ⟨hz, he⟩ | ⟨hz, he⟩
  · rw [he]
    intro hs
    have hsel : selectNode lb ledger now i = node := by
      exact (GoOutcome.success.injEq _ _).mp hs
    by_cases hne : getAvailableNodes lb ledger now = []
    · exact hz (selectNode_of_empty lb ledger now i hne)
    · exact hmem (hsel ▸ selectNode_mem lb ledger now i hne)
  · rw [he]
    intro hs
    cases hs

/-- C7 witness input: only `A` is registered. -/
def lbC7 : LoadBalancer := ⟨[⟨"A", 2, 100⟩]⟩

/-- C7 witness ledger: the unregistered node `B` has a window event. -/
def ledgerC7 : List UsageEvent := [⟨"B", 95, 10⟩]

/-- C7 witness: the theorem applied to the unregistered node `B`,
which has usage in the window. -/
theorem c7_unregistered_never_routed_witness :
    (∀ L ∈ lbC7.limits, L.NodeID ≠ "B") ∧
    ("B" ∉ getAvailableNodes lbC7 ledgerC7 100 ∧
     (handleRequest (some ⟨5⟩) lbC7 ledgerC7 100 0).1 ≠ .success "B") :=
  ⟨by decide,
   c7_unregistered_never_routed lbC7 ledgerC7 100 "B" ⟨5⟩ 0 (by decide)⟩

/-- C8 input: one registered node with headroom, one window event. -/
def lbC8 : LoadBalancer := ⟨[⟨"A", 10, 50⟩]⟩

/-- C8 ledger before the failing call. -/
def ledgerC8 : List UsageEvent := [⟨"A", 90, 30⟩]

/-- C8: the claim says a store failure during `handle` is surfaced to
the caller as a 503-equivalent response distinct from the 429
rejection.  The code instead calls `log.Fatal` on both the failing
aggregation query and the failing insert, terminating the whole
process with no HTTP response at all (status recorded as 0, not 503);
the ledger is left unchanged, and on the insert-failure path a node
had already been selected. -/
theorem c8_store_failure_is_fatal :
    handleRequestStore (some ⟨30⟩) lbC8 ledgerC8 100 0 .failed .ok =
      (.fatalExit, ledgerC8, lbC8) ∧
    handleRequestStore (some ⟨30⟩) lbC8 ledgerC8 100 0 .ok .failed =
      (.fatalExit, ledgerC8, lbC8) ∧
    selectNode lbC8 ledgerC8 100 0 = "A" ∧
    httpStatus .fatalExit = 0 ∧
    httpStatus .fatalExit ≠ 503 ∧
    httpStatus .fatalExit ≠ 429 := by
  decide

/-- C9: per call, `handleRequest` never changes the limits map; a
parse failure answers 400 immediately with the ledger untouched (no
admission logic has observable effect); a success outcome appends
exactly the one usage event of the returned node with the request's
workload; and every non-success outcome (400 or 429) leaves the
ledger unchanged. -/
theorem c9_single_append_frame (parsed : Option Request) (lb : LoadBalancer)
    (ledger : List UsageEvent) (now : Int) (i : Nat) (req : Request)
    (n : String) :
    (handleRequest parsed lb ledger now i).2.2 = lb ∧
    (parsed = none →
       handleRequest parsed lb ledger now i = (.badRequest, ledger, lb)) ∧
    (parsed = some req → (handleRequest parsed lb ledger now i).1 = .success n →
       (handleRequest parsed lb ledger now i).2.1 =
         ledger ++ [⟨n, now, req.BPM⟩]) ∧
    ((handleRequest parsed lb ledger now i).1 = .badRequest ∨
     (handleRequest parsed lb ledger now i).1 = .rateLimited →
       (handleRequest parsed lb ledger now i).2.1 = ledger) := by
  match parsed with
  | none =>
      refine ⟨rfl, fun _ => rfl, ?_, fun _ => rfl⟩
      intro hp
      cases hp
  | some req' =>
      rcases handleRequest_some_cases req' lb ledger now i with ⟨hz, he⟩ | ⟨hz, he⟩
      · rw [he]
        refine ⟨rfl, ?_, ?_, ?_⟩
        · intro hp
          cases hp
        · intro hp hs
          cases hp
          have hn : selectNode lb ledger now i = n :=
            (GoOutcome.success.injEq _ _).mp hs
          rw [hn]
        · intro hbad
          rcases hbad with hb | hb <;> cases hb
      · rw [he]
        refine ⟨rfl, ?_, ?_, fun _ => rfl⟩
        · intro hp
          cases hp
        · intro hp hs
          cases hs

/-- C9 witness input: one eligible node. -/
def lbC9 : LoadBalancer := ⟨[⟨"A", 2, 100⟩]⟩

/-- C9 witness ledger: one window event, leaving headroom. -/
def ledgerC9 : List UsageEvent := [⟨"A", 95, 10⟩]

/-- C9 witness: the theorem applied on the success path (one event
appended, limits map unchanged) and on the parse-failure path (400,
nothing appended). -/
theorem c9_single_append_frame_witness :
    (handleRequest (some ⟨30⟩) lbC9 ledgerC9 100 0).1 = .success "A" ∧
    (handleRequest (some ⟨30⟩) lbC9 ledgerC9 100 0).2.1 =
      ledgerC9 ++ [⟨"A", 100, 30⟩] ∧
    (handleRequest (some ⟨30⟩) lbC9 ledgerC9 100 0).2.2 = lbC9 ∧
    handleRequest none lbC9 ledgerC9 100 0 = (.badRequest, ledgerC9, lbC9) :=
  ⟨by decide,
   (c9_single_append_frame (some ⟨30⟩) lbC9 ledgerC9 100 0 ⟨30⟩
     "A").2.2.1 rfl (by decide),
   (c9_single_append_frame (some ⟨30⟩) lbC9 ledgerC9 100 0 ⟨30⟩ "A").1,
   (c9_single_append_frame none lbC9 ledgerC9 100 0 ⟨30⟩ "A").2.1 rfl⟩

/-- C10: `selectNode` encodes "no eligible node" as the empty string,
so when the empty-string node is registered, eligible, and actually
returned by the selection, `handleRequest` cannot tell the two cases
apart: it takes the 429 branch and appends no usage event. -/
theorem c10_empty_string_node_rejected (lb : LoadBalancer)
    (ledger : List UsageEvent) (now : Int) (req : Request) (i : Nat)
    (hreg : ∃ L ∈ lb.limits, L.NodeID = "")
    (helig : "" ∈ getAvailableNodes lb ledger now)
    (hsel : selectNode lb ledger now i = "") :
    handleRequest (some req) lb ledger now i = (.rateLimited, ledger, lb) ∧
    httpStatus (handleRequest (some req) lb ledger now i).1 = 429 := by
  have h1 : handleRequest (some req) lb ledger now i =
      (.rateLimited, ledger, lb) := by
    simp [handleRequest, hsel]
  refine ⟨h1, ?_⟩
  rw [h1]
  rfl

/-- C10 witness input: the empty string registered as a node id with
ample limits. -/
def lbC10 : LoadBalancer := ⟨[⟨"", 5, 100⟩]⟩

/-- C10 witness ledger: one window event of the empty-string node, so
it is the (only) eligible node. -/
def ledgerC10 : List UsageEvent := [⟨"", 95, 10⟩]

/-- C10 witness: the empty-string node is registered, eligible and
selected, and the request is nevertheless answered 429 with no
append. -/
theorem c10_empty_string_node_rejected_witness :
    (∃ L ∈ lbC10.limits, L.NodeID = "") ∧
    "" ∈ getAvailableNodes lbC10 ledgerC10 100 ∧
    selectNode lbC10 ledgerC10 100 0 = "" ∧
    (handleRequest (some ⟨30⟩) lbC10 ledgerC10 100 0 =
       (.rateLimited, ledgerC10, lbC10) ∧
     httpStatus (handleRequest (some ⟨30⟩) lbC10 ledgerC10 100 0).1 = 429) :=
  ⟨by decide, by decide, by decide,
   c10_empty_string_node_rejected lbC10 ledgerC10 100 ⟨30⟩ 0 (by decide)
     (by decide) (by decide)⟩
